import Mathlib

/-!
# open-forms admin UI: FormSteps, ServiceFetchConfigurationPicker, SelectField, Storybook

A shallow embedding of four source files:

* `src/openforms/js/components/admin/form_design/FormSteps.js`
* `src/openforms/js/components/admin/form_design/variables/ServiceFetchConfigurationPicker.js`
* `src/openforms/js/components/form/select.js`
* `.storybook/main.js`

React components are embedded as a pure render function of props and hook state,
together with one state transformer per event handler. JavaScript values that
the code only passes around are embedded in `JSValue`; objects are ordered
property lists.
-/

namespace OpenForms

/-! ## JavaScript values -/

/-- JavaScript values, as far as the embedded code inspects them. Numbers are
the integers (only list positions occur), `regex` is a regular-expression
literal given by its source, `inst cls args` is the result of `new cls(...args)`. -/
inductive JSValue where
  | undefined : JSValue
  | null : JSValue
  | bool (b : Bool) : JSValue
  | num (n : Int) : JSValue
  | str (s : String) : JSValue
  | regex (source : String) : JSValue
  | arr (items : List JSValue) : JSValue
  | obj (props : List (String × JSValue)) : JSValue
  | inst (cls : String) (args : List JSValue) : JSValue

/-- The own enumerable properties of an object literal, in insertion order. -/
abbrev JSObject := List (String × JSValue)

namespace JSValue

/-- JavaScript truthiness (`Boolean(v)`). -/
def truthy : JSValue → Bool
  | undefined => false
  | null => false
  | bool b => b
  | num n => n != 0
  | str s => s != ""
  | regex _ => true
  | arr _ => true
  | obj _ => true
  | inst _ _ => true

/-- The operator `a && b`: `a` when `a` is falsy, else `b`. -/
def and (a b : JSValue) : JSValue := if a.truthy then b else a

/-- The operator `!a`. -/
def not (a : JSValue) : JSValue := bool (!a.truthy)

/-- Strict equality `v === s` against a string literal. -/
def strictEqStr : JSValue → String → Bool
  | str t, s => t == s
  | _, _ => false

end JSValue

namespace JSObject

/-- Property read `o[k]`: the value of the property, `undefined` when absent. -/
def get : JSObject → String → JSValue
  | [], _ => JSValue.undefined
  | (k, v) :: rest, key => if k = key then v else get rest key

/-- Property definition of an object literal, `{...o, [k]: v}`: an existing
property keeps its position and takes the new value, a new one is added last. -/
def set : JSObject → String → JSValue → JSObject
  | [], key, v => [(key, v)]
  | (k, w) :: rest, key, v => if k = key then (k, v) :: rest else (k, w) :: set rest key v

end JSObject

/-- The call `f.bind(null, ...bound)`: the bound function calls `f`
with the bound arguments followed by the arguments of the call. -/
def bind {R : Type} (f : List JSValue → R) (bound : List JSValue) : List JSValue → R :=
  fun args => f (bound ++ args)

/-- The method `Array.prototype.find`: the first element satisfying the predicate, or
`undefined` (here `none`). -/
def arrayFind {α : Type} (p : α → Bool) : List α → Option α
  | [] => none
  | x :: xs => if p x then some x else arrayFind p xs

/-- Array spread `[...v]`: the elements of an iterable. Arrays give their items, strings
their characters; any other value of `JSValue` is not iterable (`TypeError`). -/
def spreadIterable : JSValue → Option (List JSValue)
  | JSValue.arr xs => some xs
  | JSValue.str s => some (s.toList.map (fun c => JSValue.str (String.singleton c)))
  | _ => none

/-! ## FormSteps.js -/

/-- One entry of the `steps` prop, with the shape of `FormSteps.propTypes`. -/
structure Step where
  configuration : JSValue
  formDefinition : String
  index : Int
  name : String
  slug : String
  url : String
  isNew : Bool
  validationErrors : List (List String)

/-- A reference that is `undefined`, `null` or an object. -/
inductive Ref (α : Type) where
  | undefined : Ref α
  | null : Ref α
  | val (a : α) : Ref α

/-- The state kept by `useState` in `FormSteps`: `null` or a list position. -/
abbrev ActiveStepIndex := Option Nat

/-- The stored index as the JavaScript value handed to `bind`. -/
def ActiveStepIndex.toJS : ActiveStepIndex → JSValue
  | none => JSValue.null
  | some i => JSValue.num (Int.ofNat i)

/-- Element access `steps[activeStepIndex]`: `steps[null]` reads the property
named "null", which an array does not have; a position past the end is
`undefined` as well. -/
def stepAt (steps : List Step) : ActiveStepIndex → Ref Step
  | none => Ref.undefined
  | some i => match steps[i]? with
    | some s => Ref.val s
    | none => Ref.undefined

/-- Props of `FormSteps`. `steps` and `submitting` may be omitted (`none`);
every handler receives the argument list of its call. `R` is whatever the
parent's handlers do. -/
structure FormStepsProps (R : Type) where
  steps : Option (List Step)
  onEdit : List JSValue → R
  onComponentMutated : List JSValue → R
  onFieldChange : List JSValue → R
  onLiteralFieldChange : List JSValue → R
  onDelete : List JSValue → R
  onReorder : List JSValue → R
  onReplace : List JSValue → R
  onAdd : List JSValue → R
  languages : JSValue
  submitting : Option Bool

/-- Destructuring default `steps = []`. -/
def FormStepsProps.stepsD {R : Type} (p : FormStepsProps R) : List Step := p.steps.getD []

/-- Destructuring default `submitting = false`. -/
def FormStepsProps.submittingD {R : Type} (p : FormStepsProps R) : Bool := p.submitting.getD false

/-- Props handed to `FormStep`. -/
structure FormStepProps (R : Type) where
  data : Step
  onEdit : List JSValue → R
  onComponentMutated : List JSValue → R
  onFieldChange : List JSValue → R
  onLiteralFieldChange : List JSValue → R
  onReplace : List JSValue → R
  languages : JSValue

/-- Props handed to `FormStepsNav` (`onActivateStep` is the state setter). -/
structure FormStepsNavProps (R : Type) where
  steps : List Step
  active : Ref Step
  onReorder : List JSValue → R
  onDelete : List JSValue → R
  onAdd : List JSValue → R

/-- Content of `div.edit-panel__edit-area`. -/
inductive EditArea (R : Type) where
  | editor (errors : List (List String)) (formStep : FormStepProps R) : EditArea R
  | notice (defaultMessage : String) (description : String) : EditArea R

/-- The rendered `section`. `submitLayer` tells whether the
`div.edit-panel__submit-layer` holding the `Loader` is present. -/
structure FormStepsView (R : Type) where
  className : String
  submitLayer : Bool
  nav : FormStepsNavProps R
  editArea : EditArea R

/-- The call `classNames('edit-panel', {'edit-panel--submitting': submitting})`. -/
def editPanelClassName (submitting : Bool) : String :=
  if submitting then "edit-panel edit-panel--submitting" else "edit-panel"

/-- The initial value `useState(steps.length ? 0 : null)`, evaluated on mount. -/
def initialActiveStepIndex {R : Type} (p : FormStepsProps R) : ActiveStepIndex :=
  if p.stepsD.length != 0 then some 0 else none

/-- The constant `activeStep = steps.length ? steps[activeStepIndex] : null`. -/
def activeStep (steps : List Step) (activeStepIndex : ActiveStepIndex) : Ref Step :=
  if steps.length != 0 then stepAt steps activeStepIndex else Ref.null

/-- One render of `FormSteps` with the given props and stored index. -/
def FormSteps {R : Type} (p : FormStepsProps R) (activeStepIndex : ActiveStepIndex) :
    FormStepsView R :=
  let steps := p.stepsD
  let submitting := p.submittingD
  let active := activeStep steps activeStepIndex
  { className := editPanelClassName submitting
    submitLayer := submitting
    nav :=
      { steps := steps
        active := active
        onReorder := p.onReorder
        onDelete := p.onDelete
        onAdd := p.onAdd }
    editArea :=
      -- `activeStep ? editor : notice`: an object is truthy, `undefined` and `null` are not
      match active with
      | Ref.val s =>
        EditArea.editor s.validationErrors
          { data := s
            onEdit := bind p.onEdit [activeStepIndex.toJS]
            onComponentMutated := p.onComponentMutated
            onFieldChange := bind p.onFieldChange [activeStepIndex.toJS]
            onLiteralFieldChange := bind p.onLiteralFieldChange [activeStepIndex.toJS]
            onReplace := bind p.onReplace [activeStepIndex.toJS]
            languages := p.languages }
      | _ =>
        EditArea.notice "Select a step to view or modify." "No-active-step-selected notice" }

/-- The first render after mount: the stored index is the initial one. -/
def FormSteps.mount {R : Type} (p : FormStepsProps R) : FormStepsView R :=
  FormSteps p (initialActiveStepIndex p)

/-- Whether the edit area holds the step editor. -/
def EditArea.isEditor {R : Type} : EditArea R → Bool
  | EditArea.editor _ _ => true
  | EditArea.notice _ _ => false

/-! ## ServiceFetchConfigurationPicker.js -/

/-- An entry of `formLogicContext.serviceFetchConfigurations`, with the
properties the picker reads. -/
structure ServiceFetchConfiguration where
  url : String
  method : String
  path : String
  service : String
  deriving DecidableEq, Repr

/-- Values held by the `serviceFetchData` state: the initial empty object,
a configuration, or `undefined` (what `find` gives when nothing matches). -/
inductive ServiceFetchData where
  | emptyObject : ServiceFetchData
  | undefined : ServiceFetchData
  | config (c : ServiceFetchConfiguration) : ServiceFetchData
  deriving DecidableEq, Repr

/-- The four `useState` cells of the picker. `selectedServiceFetchConfig` is
`null` (`none`) or the selected value. -/
structure PickerState where
  selectExisting : Bool
  selectedServiceFetchConfig : Option String
  showServiceFetchConfigurationForm : Bool
  serviceFetchData : ServiceFetchData
  deriving DecidableEq, Repr

/-- The initial values given to `useState`. -/
def PickerState.initial : PickerState :=
  { selectExisting := false
    selectedServiceFetchConfig := none
    showServiceFetchConfigurationForm := false
    serviceFetchData := ServiceFetchData.emptyObject }

/-- The template literal of one choice label:
method, blank, path, blank, service in parentheses. -/
def choiceLabel (fetchConfig : ServiceFetchConfiguration) : String :=
  fetchConfig.method ++ " " ++ fetchConfig.path ++ " (" ++ fetchConfig.service ++ ")"

/-- The constant `serviceFetchConfigurationChoices`: the context's list mapped
to pairs `[url, label]`. -/
def serviceFetchConfigurationChoices (serviceFetchConfigurations : List ServiceFetchConfiguration) :
    List (String × String) :=
  serviceFetchConfigurations.map (fun fetchConfig => (fetchConfig.url, choiceLabel fetchConfig))

/-- Handler `onClick` of the 'select existing' tile: `setSelectExisting(true)`. -/
def clickSelectExisting (s : PickerState) : PickerState :=
  { s with selectExisting := true }

/-- Handler `onClick` of the 'create new' tile: `setSelectExisting(false)` and
`setShowServiceFetchConfigurationForm(true)`. -/
def clickCreateNew (s : PickerState) : PickerState :=
  { s with selectExisting := false, showServiceFetchConfigurationForm := true }

/-- The lookup `serviceFetchConfigurations.find(element => element.url === value)`. -/
def findByUrl (serviceFetchConfigurations : List ServiceFetchConfiguration) (value : String) :
    Option ServiceFetchConfiguration :=
  arrayFind (fun element => decide (element.url = value)) serviceFetchConfigurations

/-- The result of `find` as stored by `setServiceFetchData`. -/
def ServiceFetchData.ofFind : Option ServiceFetchConfiguration → ServiceFetchData
  | some c => ServiceFetchData.config c
  | none => ServiceFetchData.undefined

/-- State part of the select's `onChange` handler, for `event.target.value = value`:
`setselectedServiceFetchConfig(value)`, `setServiceFetchData(find(...))`,
`setShowServiceFetchConfigurationForm(true)`. -/
def selectOnChange (serviceFetchConfigurations : List ServiceFetchConfiguration)
    (value : String) (s : PickerState) : PickerState :=
  { s with
    selectedServiceFetchConfig := some value
    serviceFetchData := ServiceFetchData.ofFind (findByUrl serviceFetchConfigurations value)
    showServiceFetchConfigurationForm := true }

/-- The calls the select's `onChange` handler makes to the `onChange` prop:
one, with the event itself (given by its target value). -/
def selectOnChangeCalls (value : String) : List String := [value]

/-- The picker's own actions. -/
inductive PickerAction where
  | selectExistingClicked : PickerAction
  | createNewClicked : PickerAction
  | selectChanged (value : String) : PickerAction
  deriving DecidableEq, Repr

/-- The handler belonging to an action. -/
def PickerAction.apply (serviceFetchConfigurations : List ServiceFetchConfiguration) :
    PickerAction → PickerState → PickerState
  | PickerAction.selectExistingClicked, s => clickSelectExisting s
  | PickerAction.createNewClicked, s => clickCreateNew s
  | PickerAction.selectChanged value, s => selectOnChange serviceFetchConfigurations value s

/-- A sequence of actions, handled in order. -/
def runActions (serviceFetchConfigurations : List ServiceFetchConfiguration) :
    List PickerAction → PickerState → PickerState
  | [], s => s
  | a :: rest, s =>
    runActions serviceFetchConfigurations rest (a.apply serviceFetchConfigurations s)

/-- Props handed to `Select`. -/
structure SelectProps where
  name : String
  choices : List (String × String)
  value : Option String
  allowBlank : Bool
  deriving DecidableEq, Repr

/-- Props handed to `ServiceFetchConfigurationForm` (data props only). -/
structure ConfigurationFormProps where
  stateData : ServiceFetchData
  selectExisting : Bool
  deriving DecidableEq, Repr

/-- What the picker renders below the tiles: the select, if any, and the form, if any. -/
structure PickerView where
  select : Option SelectProps
  form : Option ConfigurationFormProps
  deriving DecidableEq, Repr

/-- One render of `ServiceFetchConfigurationPicker`. -/
def ServiceFetchConfigurationPicker (serviceFetchConfigurations : List ServiceFetchConfiguration)
    (s : PickerState) : PickerView :=
  { select :=
      if s.selectExisting then
        some
          { name := "fetchConfiguration.existing"
            choices := serviceFetchConfigurationChoices serviceFetchConfigurations
            value := s.selectedServiceFetchConfig
            allowBlank := true }
      else none
    form :=
      if s.showServiceFetchConfigurationForm then
        some { stateData := s.serviceFetchData, selectExisting := s.selectExisting }
      else none }

/-- Modelled from the spec: `components/admin/forms/Select` is not among the
sources. The values its `onChange` can carry are the values of the options it
offers: the blank option (empty value) first when `allowBlank` is set, then the
first component of every choice. -/
def SelectProps.emittableValues (p : SelectProps) : List String :=
  (if p.allowBlank then [""] else []) ++ p.choices.map Prod.fst

/-! ## select.js -/

/-- The constant `values`: the single 'data.values' datagrid added to the basic tab. -/
def values : List JSValue :=
  [JSValue.obj
    [("type", JSValue.str "datagrid"),
     ("input", JSValue.bool true),
     ("label", JSValue.str "Values"),
     ("key", JSValue.str "data.values"),
     ("tooltip", JSValue.str "The radio button values that can be picked for this field. Values are text submitted with the form data. Labels are text that appears next to the radio buttons on the form."),
     ("weight", JSValue.num 10),
     ("reorder", JSValue.bool true),
     ("defaultValue",
        JSValue.arr [JSValue.obj [("label", JSValue.str ""), ("value", JSValue.str "")]]),
     ("components",
        JSValue.arr
          [JSValue.obj
            [("label", JSValue.str "Label"),
             ("key", JSValue.str "label"),
             ("input", JSValue.bool true),
             ("type", JSValue.str "textfield")],
           JSValue.obj
            [("label", JSValue.str "Value"),
             ("key", JSValue.str "value"),
             ("input", JSValue.bool true),
             ("type", JSValue.str "textfield"),
             ("allowCalculateOverride", JSValue.bool true),
             ("calculateValue",
                JSValue.obj
                  [("_camelCase", JSValue.arr [JSValue.obj [("var", JSValue.str "row.label")]])])]])]]

/-- The vendor class `Formio.Components.components.select`, as far as
`SelectField` uses it: the static `schema(...extend)` and the static `builderInfo`. -/
structure VendorSelect where
  schema : List JSValue → JSObject
  builderInfo : JSObject

/-- The tab definitions imported from `./edit/tabs`. `DEFAULT_TABS` and `BASIC`
are spread into object literals. -/
structure EditTabs where
  DEFAULT_TABS : JSObject
  BASIC : JSObject
  ADVANCED : JSValue
  VALIDATION : JSValue
  REGISTRATION : JSValue
  TRANSLATIONS : JSValue

namespace SelectField

/-- The object literal handed to `localiseSchema` by `schema`. -/
def schemaArgument (Select : VendorSelect) (extend : List JSValue) : JSObject :=
  JSObject.set (Select.schema extend) "key" (JSValue.str "select-key")

/-- The static method `schema(...extend)`; `localiseSchema` is imported from `./i18n`. -/
def schema (Select : VendorSelect) (localiseSchema : JSValue → JSValue)
    (extend : List JSValue) : JSValue :=
  localiseSchema (JSValue.obj (schemaArgument Select extend))

/-- The static getter `builderInfo`. -/
def builderInfo (Select : VendorSelect) (localiseSchema : JSValue → JSValue) : JSObject :=
  JSObject.set Select.builderInfo "schema" (schema Select localiseSchema [])

/-- The local constant `BASIC_TAB` of `editForm`; `none` when
`BASIC.components` cannot be spread. -/
def basicTab (tabs : EditTabs) : Option JSObject :=
  match spreadIterable (JSObject.get tabs.BASIC "components") with
  | none => none
  | some basicComponents =>
    some (JSObject.set tabs.BASIC "components" (JSValue.arr (basicComponents ++ values)))

/-- The local constant `TABS` of `editForm`, given `BASIC_TAB`. -/
def tabsOf (tabs : EditTabs) (BASIC_TAB : JSObject) : JSObject :=
  JSObject.set tabs.DEFAULT_TABS "components"
    (JSValue.arr
      [JSValue.obj BASIC_TAB, tabs.ADVANCED, tabs.VALIDATION, tabs.REGISTRATION,
        tabs.TRANSLATIONS])

/-- The static method `editForm()`; `none` when it throws. -/
def editForm (tabs : EditTabs) : Option JSObject :=
  match basicTab tabs with
  | none => none
  | some BASIC_TAB => some [("components", JSValue.arr [JSValue.obj (tabsOf tabs BASIC_TAB)])]

end SelectField

/-! ## .storybook/main.js -/

/-- The parts of Storybook's webpack configuration that `webpackFinal` touches:
`config.resolve.modules` (possibly `undefined`), `config.plugins` and
`config.module.rules`. -/
structure WebpackConfig where
  resolveModules : Option (List JSValue)
  plugins : List JSValue
  rules : List JSValue

/-- Values `webpackFinal` takes from its module scope: the loader path exported
by the plugin as `MiniCssExtractPlugin.loader`, and the result of
`path.resolve(__dirname, '../src/openforms/js')`. -/
structure BuildScope where
  miniCssExtractLoader : String
  jsDir : String

/-- The plugin instance `new MiniCssExtractPlugin(opts)` made in `webpackFinal`. -/
def miniCssExtractPlugin : JSValue :=
  JSValue.inst "MiniCssExtractPlugin"
    [JSValue.obj [("filename", JSValue.str "static/bundles/[name].css")]]

/-- The entry for `css-loader`. -/
def cssLoader : JSValue :=
  JSValue.obj
    [("loader", JSValue.str "css-loader"),
     ("options", JSValue.obj [("url", JSValue.bool false)])]

/-- The entry for `postcss-loader`. -/
def postcssLoader : JSValue := JSValue.obj [("loader", JSValue.str "postcss-loader")]

/-- The `options` of the entry for `sass-loader`. -/
def sassLoaderOptions : JSValue :=
  JSValue.obj
    [("sassOptions",
        JSValue.obj [("comments", JSValue.bool false), ("style", JSValue.str "compressed")])]

/-- The entry for `sass-loader`. -/
def sassLoader : JSValue :=
  JSValue.obj [("loader", JSValue.str "sass-loader"), ("options", sassLoaderOptions)]

/-- The entry for `style-loader`. -/
def styleLoader : JSValue := JSValue.obj [("loader", JSValue.str "style-loader")]

/-- The array literal under `use`, before `.filter(Boolean)`. -/
def scssUseEntries (scope : BuildScope) (isEnvProduction : Bool) : List JSValue :=
  [JSValue.and (JSValue.not (JSValue.bool isEnvProduction)) styleLoader,
   JSValue.and (JSValue.bool isEnvProduction) (JSValue.str scope.miniCssExtractLoader),
   cssLoader,
   postcssLoader,
   sassLoader]

/-- The loader chain: the entries after `.filter(Boolean)`. -/
def scssUse (scope : BuildScope) (isEnvProduction : Bool) : List JSValue :=
  (scssUseEntries scope isEnvProduction).filter JSValue.truthy

/-- The rule pushed onto `config.module.rules`. -/
def scssRule (scope : BuildScope) (isEnvProduction : Bool) : JSValue :=
  JSValue.obj
    [("test", JSValue.regex "\\.scss$"),
     ("use", JSValue.arr (scssUse scope isEnvProduction))]

/-- The hook `webpackFinal(config, {configType})`, returning the configuration
it resolves to. -/
def webpackFinal (scope : BuildScope) (config : WebpackConfig) (configType : JSValue) :
    WebpackConfig :=
  let isEnvProduction := configType.strictEqStr "PRODUCTION"
  { resolveModules :=
      some (config.resolveModules.getD [] ++
        [JSValue.str "node_modules", JSValue.str scope.jsDir])
    plugins := if isEnvProduction then config.plugins ++ [miniCssExtractPlugin] else config.plugins
    rules := config.rules ++ [scssRule scope isEnvProduction] }

/-! ## Sample inputs -/

/-- A step named "Personal details" carrying one validation error. -/
def sampleStepA : Step :=
  { configuration := JSValue.obj [("components", JSValue.arr [])]
    formDefinition := "/api/v2/form-definitions/1"
    index := 0
    name := "Personal details"
    slug := "personal-details"
    url := "/api/v2/forms/1/steps/1"
    isNew := false
    validationErrors := [["name", "This field is required."]] }

/-- A second, new step without validation errors. -/
def sampleStepB : Step :=
  { configuration := JSValue.obj [("components", JSValue.arr [])]
    formDefinition := ""
    index := 1
    name := "Summary"
    slug := "summary"
    url := ""
    isNew := true
    validationErrors := [] }

/-- Props whose handlers record their own name and the arguments they got. -/
def sampleProps (steps : Option (List Step)) (submitting : Option Bool) :
    FormStepsProps (String × List JSValue) :=
  { steps := steps
    onEdit := fun args => ("onEdit", args)
    onComponentMutated := fun args => ("onComponentMutated", args)
    onFieldChange := fun args => ("onFieldChange", args)
    onLiteralFieldChange := fun args => ("onLiteralFieldChange", args)
    onDelete := fun args => ("onDelete", args)
    onReorder := fun args => ("onReorder", args)
    onReplace := fun args => ("onReplace", args)
    onAdd := fun args => ("onAdd", args)
    languages := JSValue.arr [JSValue.str "nl", JSValue.str "en"]
    submitting := submitting }

/-- The props `FormStep` gets for `sampleProps` when the given step at the
given position is active. -/
def sampleFormStepProps (s : Step) (i : Nat) : FormStepProps (String × List JSValue) :=
  { data := s
    onEdit := bind (fun args => ("onEdit", args)) [JSValue.num (Int.ofNat i)]
    onComponentMutated := fun args => ("onComponentMutated", args)
    onFieldChange := bind (fun args => ("onFieldChange", args)) [JSValue.num (Int.ofNat i)]
    onLiteralFieldChange :=
      bind (fun args => ("onLiteralFieldChange", args)) [JSValue.num (Int.ofNat i)]
    onReplace := bind (fun args => ("onReplace", args)) [JSValue.num (Int.ofNat i)]
    languages := JSValue.arr [JSValue.str "nl", JSValue.str "en"] }

/-- A configuration `GET /pets` on the pet store service. -/
def sampleConfigA : ServiceFetchConfiguration :=
  { url := "/api/v2/service-fetch-configurations/1"
    method := "GET"
    path := "/pets"
    service := "Pet store" }

/-- A configuration `POST /orders` on the same service. -/
def sampleConfigB : ServiceFetchConfiguration :=
  { url := "/api/v2/service-fetch-configurations/2"
    method := "POST"
    path := "/orders"
    service := "Pet store" }

/-- A configuration that repeats the url of `sampleConfigA` with other values. -/
def sampleConfigC : ServiceFetchConfiguration :=
  { url := "/api/v2/service-fetch-configurations/1"
    method := "GET"
    path := "/users"
    service := "Accounts" }

/-- The list of configurations of the sample context. -/
def sampleConfigs : List ServiceFetchConfiguration :=
  [sampleConfigA, sampleConfigB, sampleConfigC]

/-- The props of the select rendered for `sampleConfigs`, nothing selected yet. -/
def sampleSelectProps : SelectProps :=
  { name := "fetchConfiguration.existing"
    choices :=
      [("/api/v2/service-fetch-configurations/1", "GET /pets (Pet store)"),
       ("/api/v2/service-fetch-configurations/2", "POST /orders (Pet store)"),
       ("/api/v2/service-fetch-configurations/1", "GET /users (Accounts)")]
    value := none
    allowBlank := true }

/-- Tab definitions in the shape of `./edit/tabs`: a tabs component and five
tabs, the basic one with two components. -/
def sampleTabs : EditTabs :=
  { DEFAULT_TABS :=
      [("type", JSValue.str "tabs"),
       ("key", JSValue.str "tabs"),
       ("components", JSValue.arr [])]
    BASIC :=
      [("key", JSValue.str "basic"),
       ("label", JSValue.str "Basic"),
       ("components",
          JSValue.arr
            [JSValue.obj [("type", JSValue.str "textfield"), ("key", JSValue.str "label")],
             JSValue.obj [("type", JSValue.str "textfield"), ("key", JSValue.str "key")]])]
    ADVANCED := JSValue.obj [("key", JSValue.str "advanced")]
    VALIDATION := JSValue.obj [("key", JSValue.str "validation")]
    REGISTRATION := JSValue.obj [("key", JSValue.str "registration")]
    TRANSLATIONS := JSValue.obj [("key", JSValue.str "translations")] }

/-- A vendor class whose schema has its own key and takes a key from the first
extension object, and whose builder info has a title and a schema. -/
def sampleVendorSelect : VendorSelect :=
  { schema := fun extend =>
      match extend with
      | JSValue.obj props :: _ =>
        [("type", JSValue.str "select"), ("key", JSObject.get props "key")]
      | _ => [("type", JSValue.str "select"), ("key", JSValue.str "select")]
    builderInfo :=
      [("title", JSValue.str "Select"),
       ("schema", JSValue.obj [("type", JSValue.str "select")])] }

/-- A localisation hook that wraps the schema it is given. -/
def sampleLocaliseSchema (schema : JSValue) : JSValue :=
  JSValue.obj [("localised", schema)]

/-- Module scope values for the Storybook hook. -/
def sampleScope : BuildScope :=
  { miniCssExtractLoader := "/node_modules/mini-css-extract-plugin/dist/loader.js"
    jsDir := "/app/src/openforms/js" }

/-- An incoming configuration with one plugin and one rule. -/
def sampleWebpackConfig : WebpackConfig :=
  { resolveModules := none
    plugins := [JSValue.inst "DefinePlugin" []]
    rules := [JSValue.obj [("test", JSValue.regex "\\.css$")]] }

/-! ## Lemmas on the embedding -/

theorem stepAt_some_lt (steps : List Step) (i : Nat) (h : i < steps.length) :
    stepAt steps (some i) = Ref.val (steps.get ⟨i, h⟩) := by
  simp [stepAt, List.getElem?_eq_getElem h]

theorem stepAt_some_ge (steps : List Step) (i : Nat) (h : steps.length ≤ i) :
    stepAt steps (some i) = Ref.undefined := by
  simp [stepAt, List.getElem?_eq_none h]

theorem activeStep_some_lt (steps : List Step) (i : Nat) (h : i < steps.length) :
    activeStep steps (some i) = Ref.val (steps.get ⟨i, h⟩) := by
  have hlen : steps.length ≠ 0 := by omega
  simp [activeStep, hlen, stepAt_some_lt steps i h]

theorem activeStep_eq_val_iff (steps : List Step) (idx : ActiveStepIndex) (s : Step) :
    activeStep steps idx = Ref.val s ↔
      ∃ i, idx = some i ∧ ∃ h : i < steps.length, steps.get ⟨i, h⟩ = s := by
  constructor
  · intro h
    unfold activeStep at h
    split at h
    · cases idx with
      | none => simp [stepAt] at h
      | some i =>
        by_cases hi : i < steps.length
        · rw [stepAt_some_lt steps i hi] at h
          injection h with h
          exact ⟨i, rfl, hi, h⟩
        · rw [stepAt_some_ge steps i (by omega)] at h
          cases h
    · cases h
  · rintro ⟨i, rfl, hi, rfl⟩
    exact activeStep_some_lt steps i hi

theorem editArea_of_val {R : Type} (p : FormStepsProps R) (idx : ActiveStepIndex) (s : Step)
    (h : activeStep p.stepsD idx = Ref.val s) :
    (FormSteps p idx).editArea =
      EditArea.editor s.validationErrors
        { data := s
          onEdit := bind p.onEdit [idx.toJS]
          onComponentMutated := p.onComponentMutated
          onFieldChange := bind p.onFieldChange [idx.toJS]
          onLiteralFieldChange := bind p.onLiteralFieldChange [idx.toJS]
          onReplace := bind p.onReplace [idx.toJS]
          languages := p.languages } := by
  simp only [FormSteps, h]

theorem editArea_of_not_val {R : Type} (p : FormStepsProps R) (idx : ActiveStepIndex)
    (h : ∀ s, activeStep p.stepsD idx ≠ Ref.val s) :
    (FormSteps p idx).editArea =
      EditArea.notice "Select a step to view or modify." "No-active-step-selected notice" := by
  simp only [FormSteps]

/-! ## FormSteps: claims -/

/-- C1: whenever `FormSteps` renders the step editor, the stored index is a
position `i` of the steps list, and the `onEdit`, `onFieldChange`,
`onLiteralFieldChange` and `onReplace` handlers handed to `FormStep` call the
parent's handler with `i` as first argument followed by the arguments of the
call, unchanged; `onComponentMutated` is the parent's handler itself. -/
theorem formSteps_handlers_carry_index {R : Type} (p : FormStepsProps R)
    (idx : ActiveStepIndex) (errors : List (List String)) (formStep : FormStepProps R)
    (hrender : (FormSteps p idx).editArea = EditArea.editor errors formStep) :
    ∃ i : Nat, idx = some i ∧ i < p.stepsD.length ∧
      (∀ args, formStep.onEdit args = p.onEdit (JSValue.num (Int.ofNat i) :: args)) ∧
      (∀ args, formStep.onFieldChange args =
        p.onFieldChange (JSValue.num (Int.ofNat i) :: args)) ∧
      (∀ args, formStep.onLiteralFieldChange args =
        p.onLiteralFieldChange (JSValue.num (Int.ofNat i) :: args)) ∧
      (∀ args, formStep.onReplace args = p.onReplace (JSValue.num (Int.ofNat i) :: args)) ∧
      formStep.onComponentMutated = p.onComponentMutated := by
  by_cases hval : ∃ s, activeStep p.stepsD idx = Ref.val s
  · obtain ⟨s, hs⟩ := hval
    obtain ⟨i, hidx, hi, _⟩ := (activeStep_eq_val_iff p.stepsD idx s).mp hs
    rw [editArea_of_val p idx s hs] at hrender
    injection hrender with _ hfs
    subst hfs
    subst hidx
    exact ⟨i, rfl, hi, fun _ => rfl, fun _ => rfl, fun _ => rfl, fun _ => rfl, rfl⟩
  · have hnot : ∀ s, activeStep p.stepsD idx ≠ Ref.val s := fun s hs => hval ⟨s, hs⟩
    rw [editArea_of_not_val p idx hnot] at hrender
    cases hrender

/-- Witness for C1: two steps, the second one active; the editor is rendered
and its `onEdit` passes position 1 before the arguments of the call. -/
theorem formSteps_handlers_carry_index_witness :
    (FormSteps (sampleProps (some [sampleStepA, sampleStepB]) none) (some 1)).editArea =
        EditArea.editor [] (sampleFormStepProps sampleStepB 1) ∧
      ∃ i : Nat, (some 1 : ActiveStepIndex) = some i ∧
        i < (sampleProps (some [sampleStepA, sampleStepB]) none).stepsD.length ∧
        (∀ args, (sampleFormStepProps sampleStepB 1).onEdit args =
          (sampleProps (some [sampleStepA, sampleStepB]) none).onEdit
            (JSValue.num (Int.ofNat i) :: args)) ∧
        (∀ args, (sampleFormStepProps sampleStepB 1).onFieldChange args =
          (sampleProps (some [sampleStepA, sampleStepB]) none).onFieldChange
            (JSValue.num (Int.ofNat i) :: args)) ∧
        (∀ args, (sampleFormStepProps sampleStepB 1).onLiteralFieldChange args =
          (sampleProps (some [sampleStepA, sampleStepB]) none).onLiteralFieldChange
            (JSValue.num (Int.ofNat i) :: args)) ∧
        (∀ args, (sampleFormStepProps sampleStepB 1).onReplace args =
          (sampleProps (some [sampleStepA, sampleStepB]) none).onReplace
            (JSValue.num (Int.ofNat i) :: args)) ∧
        (sampleFormStepProps sampleStepB 1).onComponentMutated =
          (sampleProps (some [sampleStepA, sampleStepB]) none).onComponentMutated :=
  ⟨rfl,
    formSteps_handlers_carry_index (sampleProps (some [sampleStepA, sampleStepB]) none)
      (some 1) [] (sampleFormStepProps sampleStepB 1) rfl⟩

/-- C7: the first render is decided by the `steps` prop. With a non-empty list
the initial index is 0 and the editor is rendered for the first step, inside a
provider of that step's validation errors. With an empty or omitted list the
initial index is `null`, the active step is `null` and the notice
"Select a step to view or modify." is rendered in place of the editor. The
submit layer is rendered exactly when `submitting` is given as true. -/
theorem formSteps_initial_render {R : Type} (p : FormStepsProps R) :
    (∀ s rest, p.steps = some (s :: rest) →
        initialActiveStepIndex p = some 0 ∧
        ∃ formStep, (FormSteps.mount p).editArea =
            EditArea.editor s.validationErrors formStep ∧ formStep.data = s) ∧
    ((p.steps = none ∨ p.steps = some []) →
        initialActiveStepIndex p = none ∧
        (FormSteps.mount p).nav.active = Ref.null ∧
        (FormSteps.mount p).editArea =
          EditArea.notice "Select a step to view or modify."
            "No-active-step-selected notice") ∧
    ((FormSteps.mount p).submitLayer = true ↔ p.submitting = some true) := by
  refine ⟨?_, ?_, ?_⟩
  · intro s rest hsteps
    have hD : p.stepsD = s :: rest := by simp [FormStepsProps.stepsD, hsteps]
    have hinit : initialActiveStepIndex p = some 0 := by simp [initialActiveStepIndex, hD]
    have hact : activeStep p.stepsD (some 0) = Ref.val s := by
      rw [hD]; simp [activeStep, stepAt]
    refine ⟨hinit, ?_⟩
    unfold FormSteps.mount
    rw [hinit, editArea_of_val p (some 0) s hact]
    exact ⟨_, rfl, rfl⟩
  · intro hsteps
    have hD : p.stepsD = [] := by
      rcases hsteps with h | h <;> simp [FormStepsProps.stepsD, h]
    have hinit : initialActiveStepIndex p = none := by simp [initialActiveStepIndex, hD]
    have hact : activeStep p.stepsD none = Ref.null := by
      rw [hD]; simp [activeStep]
    refine ⟨hinit, ?_, ?_⟩
    · unfold FormSteps.mount
      rw [hinit]
      simpa [FormSteps] using hact
    · unfold FormSteps.mount
      rw [hinit]
      apply editArea_of_not_val
      intro s hs
      rw [hact] at hs
      cases hs
  · unfold FormSteps.mount
    cases hsub : p.submitting with
    | none => simp [FormSteps, FormStepsProps.submittingD, hsub]
    | some b => simp [FormSteps, FormStepsProps.submittingD, hsub]

/-- Witness for C7: with two steps the editor opens on the first one with its
validation errors; with `steps` omitted the notice is shown. -/
theorem formSteps_initial_render_witness :
    (initialActiveStepIndex (sampleProps (some [sampleStepA, sampleStepB]) none) = some 0 ∧
      ∃ formStep, (FormSteps.mount (sampleProps (some [sampleStepA, sampleStepB]) none)).editArea =
          EditArea.editor sampleStepA.validationErrors formStep ∧ formStep.data = sampleStepA) ∧
    (initialActiveStepIndex (sampleProps none (some true)) = none ∧
      (FormSteps.mount (sampleProps none (some true))).nav.active = Ref.null ∧
      (FormSteps.mount (sampleProps none (some true))).editArea =
        EditArea.notice "Select a step to view or modify." "No-active-step-selected notice") :=
  ⟨(formSteps_initial_render (sampleProps (some [sampleStepA, sampleStepB]) none)).1
      sampleStepA [sampleStepB] rfl,
    (formSteps_initial_render (sampleProps none (some true))).2.1 (Or.inl rfl)⟩

/-- C8: for every list of step objects and every stored index that is `null`
or a natural number, the editor is rendered exactly when the list is
non-empty and the index is a number below the length of the list; then the
editor's data and validation errors are those of the step at that position and
the handlers are bound to that position. In every other case (an index past
the end, or a `null` index) the notice is rendered. -/
theorem formSteps_editor_iff_index_valid {R : Type} (p : FormStepsProps R)
    (idx : ActiveStepIndex) :
    ((FormSteps p idx).editArea.isEditor = true ↔
        p.stepsD ≠ [] ∧ ∃ i, idx = some i ∧ i < p.stepsD.length) ∧
    (∀ i (h : i < p.stepsD.length), idx = some i →
        (FormSteps p idx).editArea =
          EditArea.editor (p.stepsD.get ⟨i, h⟩).validationErrors
            { data := p.stepsD.get ⟨i, h⟩
              onEdit := bind p.onEdit [JSValue.num (Int.ofNat i)]
              onComponentMutated := p.onComponentMutated
              onFieldChange := bind p.onFieldChange [JSValue.num (Int.ofNat i)]
              onLiteralFieldChange := bind p.onLiteralFieldChange [JSValue.num (Int.ofNat i)]
              onReplace := bind p.onReplace [JSValue.num (Int.ofNat i)]
              languages := p.languages }) ∧
    ((idx = none ∨ ∃ i, idx = some i ∧ p.stepsD.length ≤ i) →
        (FormSteps p idx).editArea =
          EditArea.notice "Select a step to view or modify."
            "No-active-step-selected notice") := by
  have hvalid : ∀ i (h : i < p.stepsD.length), idx = some i →
      (FormSteps p idx).editArea =
        EditArea.editor (p.stepsD.get ⟨i, h⟩).validationErrors
          { data := p.stepsD.get ⟨i, h⟩
            onEdit := bind p.onEdit [JSValue.num (Int.ofNat i)]
            onComponentMutated := p.onComponentMutated
            onFieldChange := bind p.onFieldChange [JSValue.num (Int.ofNat i)]
            onLiteralFieldChange := bind p.onLiteralFieldChange [JSValue.num (Int.ofNat i)]
            onReplace := bind p.onReplace [JSValue.num (Int.ofNat i)]
            languages := p.languages } := by
    intro i h hidx
    subst hidx
    exact editArea_of_val p (some i) _ (activeStep_some_lt p.stepsD i h)
  have hstale : (idx = none ∨ ∃ i, idx = some i ∧ p.stepsD.length ≤ i) →
      (FormSteps p idx).editArea =
        EditArea.notice "Select a step to view or modify."
          "No-active-step-selected notice" := by
    intro hbad
    apply editArea_of_not_val
    intro s hs
    obtain ⟨i, hidx, hi, _⟩ := (activeStep_eq_val_iff p.stepsD idx s).mp hs
    rcases hbad with hnone | ⟨j, hj, hle⟩
    · rw [hnone] at hidx; cases hidx
    · rw [hj] at hidx
      injection hidx with hij
      omega
  refine ⟨⟨?_, ?_⟩, hvalid, hstale⟩
  · intro hed
    cases idx with
    | none =>
      rw [hstale (Or.inl rfl)] at hed
      simp [EditArea.isEditor] at hed
    | some i =>
      by_cases hi : i < p.stepsD.length
      · refine ⟨?_, i, rfl, hi⟩
        intro hnil
        rw [hnil] at hi
        simp at hi
      · rw [hstale (Or.inr ⟨i, rfl, by omega⟩)] at hed
        simp [EditArea.isEditor] at hed
  · rintro ⟨_, i, hidx, hi⟩
    rw [hvalid i hi hidx]
    rfl

/-- Witness for C8: with two steps, index 1 renders the editor for the second
step, while the stale index 2 and a `null` index render the notice. -/
theorem formSteps_editor_iff_index_valid_witness :
    (FormSteps (sampleProps (some [sampleStepA, sampleStepB]) none) (some 1)).editArea =
        EditArea.editor sampleStepB.validationErrors (sampleFormStepProps sampleStepB 1) ∧
    (FormSteps (sampleProps (some [sampleStepA, sampleStepB]) none) (some 2)).editArea =
        EditArea.notice "Select a step to view or modify." "No-active-step-selected notice" ∧
    (FormSteps (sampleProps (some [sampleStepA, sampleStepB]) none) none).editArea =
        EditArea.notice "Select a step to view or modify." "No-active-step-selected notice" :=
  ⟨(formSteps_editor_iff_index_valid (sampleProps (some [sampleStepA, sampleStepB]) none)
      (some 1)).2.1 1 (by decide) rfl,
    (formSteps_editor_iff_index_valid (sampleProps (some [sampleStepA, sampleStepB]) none)
      (some 2)).2.2 (Or.inr ⟨2, rfl, by decide⟩),
    (formSteps_editor_iff_index_valid (sampleProps (some [sampleStepA, sampleStepB]) none)
      none).2.2 (Or.inl rfl)⟩

/-! ## ServiceFetchConfigurationPicker: lemmas -/

theorem arrayFind_eq_some {α : Type} (q : α → Bool) (xs : List α) (x : α)
    (h : arrayFind q xs = some x) :
    q x = true ∧ ∃ before after, xs = before ++ x :: after ∧ ∀ y ∈ before, q y = false := by
  induction xs with
  | nil => simp [arrayFind] at h
  | cons y ys ih =>
    unfold arrayFind at h
    by_cases hy : q y = true
    · rw [if_pos hy] at h
      injection h with h
      subst h
      exact ⟨hy, [], ys, rfl, by simp⟩
    · rw [if_neg hy] at h
      obtain ⟨hx, before, after, hsplit, hbefore⟩ := ih h
      refine ⟨hx, y :: before, after, by simp [hsplit], ?_⟩
      intro z hz
      rcases List.mem_cons.mp hz with hz | hz
      · subst hz; simpa using hy
      · exact hbefore z hz

theorem arrayFind_isSome_of_mem {α : Type} (q : α → Bool) (xs : List α) (x : α)
    (hmem : x ∈ xs) (hq : q x = true) : ∃ y, arrayFind q xs = some y := by
  induction xs with
  | nil => simp at hmem
  | cons y ys ih =>
    unfold arrayFind
    by_cases hy : q y = true
    · exact ⟨y, by rw [if_pos hy]⟩
    · rw [if_neg hy]
      rcases List.mem_cons.mp hmem with h | h
      · subst h; exact absurd hq hy
      · exact ih h

theorem findByUrl_eq_some (cfgs : List ServiceFetchConfiguration) (value : String)
    (c : ServiceFetchConfiguration) (h : findByUrl cfgs value = some c) :
    c ∈ cfgs ∧ c.url = value ∧
      ∃ before after, cfgs = before ++ c :: after ∧ ∀ d ∈ before, d.url ≠ value := by
  obtain ⟨hc, before, after, hsplit, hbefore⟩ := arrayFind_eq_some _ cfgs c h
  refine ⟨by simp [hsplit], by simpa using hc, before, after, hsplit, ?_⟩
  intro d hd
  simpa using hbefore d hd

theorem findByUrl_of_mem (cfgs : List ServiceFetchConfiguration) (value : String)
    (h : ∃ c, c ∈ cfgs ∧ c.url = value) : ∃ c, findByUrl cfgs value = some c := by
  obtain ⟨c, hmem, hurl⟩ := h
  exact arrayFind_isSome_of_mem _ cfgs c hmem (by simpa using hurl)

theorem mem_choice_values (cfgs : List ServiceFetchConfiguration) (value : String) :
    value ∈ (serviceFetchConfigurationChoices cfgs).map Prod.fst ↔
      ∃ c, c ∈ cfgs ∧ c.url = value := by
  simp [serviceFetchConfigurationChoices]

theorem runActions_keeps_form (cfgs : List ServiceFetchConfiguration)
    (actions : List PickerAction) :
    ∀ s : PickerState, s.showServiceFetchConfigurationForm = true →
      (runActions cfgs actions s).showServiceFetchConfigurationForm = true := by
  induction actions with
  | nil => intro s h; exact h
  | cons a rest ih =>
    intro s h
    apply ih
    cases a <;> simp [PickerAction.apply, clickSelectExisting, clickCreateNew, selectOnChange, h]

/-! ## ServiceFetchConfigurationPicker: claims -/

/-- Counterexample for C2: with `sampleConfigs` the rendered select offers the
blank option; when it is chosen the handler stores `undefined`, which is not a
configuration of the list with the selected (empty) url. -/
theorem selectOnChange_blank_counterexample :
    (∃ sel, (ServiceFetchConfigurationPicker sampleConfigs
          (clickSelectExisting PickerState.initial)).select = some sel ∧
        "" ∈ sel.emittableValues) ∧
    (selectOnChange sampleConfigs "" (clickSelectExisting PickerState.initial)).serviceFetchData =
      ServiceFetchData.undefined ∧
    ¬ ∃ c, c ∈ sampleConfigs ∧ c.url = "" ∧
      (selectOnChange sampleConfigs "" (clickSelectExisting PickerState.initial)).serviceFetchData =
        ServiceFetchData.config c := by
  refine ⟨⟨sampleSelectProps, by decide, by decide⟩, by decide, ?_⟩
  rintro ⟨c, _, _, hdata⟩
  have hundef : (selectOnChange sampleConfigs ""
      (clickSelectExisting PickerState.initial)).serviceFetchData =
        ServiceFetchData.undefined := by decide
  rw [hundef] at hdata
  cases hdata

/-- C2, amended: for every list of configurations and every value carried by
one of the choices of the select (the url of a configuration of the list),
after the `onChange` handler runs `selectedServiceFetchConfig` is that value
and `serviceFetchData` is a configuration of the list whose url equals it. -/
theorem selectOnChange_sets_config_of_choice (cfgs : List ServiceFetchConfiguration)
    (s : PickerState) (value : String)
    (hvalue : value ∈ (serviceFetchConfigurationChoices cfgs).map Prod.fst) :
    (selectOnChange cfgs value s).selectedServiceFetchConfig = some value ∧
    ∃ c, c ∈ cfgs ∧ c.url = value ∧
      (selectOnChange cfgs value s).serviceFetchData = ServiceFetchData.config c := by
  obtain ⟨c, hc⟩ := findByUrl_of_mem cfgs value ((mem_choice_values cfgs value).mp hvalue)
  obtain ⟨hmem, hurl, _⟩ := findByUrl_eq_some cfgs value c hc
  exact ⟨rfl, c, hmem, hurl, by simp [selectOnChange, hc, ServiceFetchData.ofFind]⟩

/-- Witness for C2, amended: choosing the second choice of `sampleConfigs`. -/
theorem selectOnChange_sets_config_of_choice_witness :
    "/api/v2/service-fetch-configurations/2" ∈
        (serviceFetchConfigurationChoices sampleConfigs).map Prod.fst ∧
    (selectOnChange sampleConfigs "/api/v2/service-fetch-configurations/2"
        (clickSelectExisting PickerState.initial)).selectedServiceFetchConfig =
      some "/api/v2/service-fetch-configurations/2" ∧
    ∃ c, c ∈ sampleConfigs ∧ c.url = "/api/v2/service-fetch-configurations/2" ∧
      (selectOnChange sampleConfigs "/api/v2/service-fetch-configurations/2"
        (clickSelectExisting PickerState.initial)).serviceFetchData =
          ServiceFetchData.config c :=
  ⟨by decide,
    selectOnChange_sets_config_of_choice sampleConfigs (clickSelectExisting PickerState.initial)
      "/api/v2/service-fetch-configurations/2" (by decide)⟩

/-- C3: the picker starts with `selectExisting` false and the form hidden;
the 'select existing' tile sets `selectExisting` to true and leaves the other
three state cells as they are; the 'create new' tile sets `selectExisting` to
false and shows the form; in every state the select is rendered exactly when
`selectExisting` is true, and a rendered form gets the current
`selectExisting`. -/
theorem picker_two_way_wizard (cfgs : List ServiceFetchConfiguration) :
    (PickerState.initial.selectExisting = false ∧
      PickerState.initial.showServiceFetchConfigurationForm = false ∧
      (ServiceFetchConfigurationPicker cfgs PickerState.initial).form = none) ∧
    (∀ s, (clickSelectExisting s).selectExisting = true ∧
      (clickSelectExisting s).selectedServiceFetchConfig = s.selectedServiceFetchConfig ∧
      (clickSelectExisting s).showServiceFetchConfigurationForm =
        s.showServiceFetchConfigurationForm ∧
      (clickSelectExisting s).serviceFetchData = s.serviceFetchData) ∧
    (∀ s, (clickCreateNew s).selectExisting = false ∧
      (clickCreateNew s).showServiceFetchConfigurationForm = true ∧
      (ServiceFetchConfigurationPicker cfgs (clickCreateNew s)).form.isSome = true) ∧
    (∀ s, ((ServiceFetchConfigurationPicker cfgs s).select.isSome = true ↔
        s.selectExisting = true) ∧
      ((ServiceFetchConfigurationPicker cfgs s).form.isSome = true ↔
        s.showServiceFetchConfigurationForm = true) ∧
      ∀ form, (ServiceFetchConfigurationPicker cfgs s).form = some form →
        form.selectExisting = s.selectExisting) := by
  refine ⟨⟨rfl, rfl, rfl⟩, fun s => ⟨rfl, rfl, rfl, rfl⟩, fun s => ⟨rfl, rfl, rfl⟩, ?_⟩
  intro s
  refine ⟨?_, ?_, ?_⟩
  · cases h : s.selectExisting <;> simp [ServiceFetchConfigurationPicker, h]
  · cases h : s.showServiceFetchConfigurationForm <;> simp [ServiceFetchConfigurationPicker, h]
  · intro form hform
    cases h : s.showServiceFetchConfigurationForm
    · simp [ServiceFetchConfigurationPicker, h] at hform
    · simp [ServiceFetchConfigurationPicker, h] at hform
      rw [← hform]

/-- Witness for C3: after 'create new' on the initial state the rendered form
gets `selectExisting` false. -/
theorem picker_two_way_wizard_witness :
    (ServiceFetchConfigurationPicker sampleConfigs (clickCreateNew PickerState.initial)).form =
        some { stateData := ServiceFetchData.emptyObject, selectExisting := false } ∧
    ({ stateData := ServiceFetchData.emptyObject, selectExisting := false } :
        ConfigurationFormProps).selectExisting =
      (clickCreateNew PickerState.initial).selectExisting :=
  ⟨by decide,
    ((picker_two_way_wizard sampleConfigs).2.2.2 (clickCreateNew PickerState.initial)).2.2
      { stateData := ServiceFetchData.emptyObject, selectExisting := false } (by decide)⟩

/-- C9: every action of the picker keeps a shown form shown, hence so does
every sequence of actions; both tile clicks leave `serviceFetchData` and
`selectedServiceFetchConfig` as they are; and 'create new', clicked after an
existing configuration was chosen in the select (with any number of tile
clicks in between), renders the form with `selectExisting` false and the data
of the chosen configuration. -/
theorem picker_form_stays_and_data_kept (cfgs : List ServiceFetchConfiguration) :
    (∀ (a : PickerAction) (s : PickerState), s.showServiceFetchConfigurationForm = true →
      (a.apply cfgs s).showServiceFetchConfigurationForm = true) ∧
    (∀ (actions : List PickerAction) (s : PickerState),
      s.showServiceFetchConfigurationForm = true →
      (runActions cfgs actions s).showServiceFetchConfigurationForm = true) ∧
    (∀ s, (clickSelectExisting s).serviceFetchData = s.serviceFetchData ∧
      (clickSelectExisting s).selectedServiceFetchConfig = s.selectedServiceFetchConfig ∧
      (clickCreateNew s).serviceFetchData = s.serviceFetchData ∧
      (clickCreateNew s).selectedServiceFetchConfig = s.selectedServiceFetchConfig) ∧
    (∀ (s : PickerState) (value : String) (c : ServiceFetchConfiguration),
      findByUrl cfgs value = some c →
      (ServiceFetchConfigurationPicker cfgs (clickCreateNew (selectOnChange cfgs value s))).form =
        some { stateData := ServiceFetchData.config c, selectExisting := false }) := by
  refine ⟨?_, ?_, fun s => ⟨rfl, rfl, rfl, rfl⟩, ?_⟩
  · intro a s h
    exact runActions_keeps_form cfgs [a] s h
  · intro actions s h
    exact runActions_keeps_form cfgs actions s h
  · intro s value c hc
    simp [ServiceFetchConfigurationPicker, clickCreateNew, selectOnChange, hc,
      ServiceFetchData.ofFind]

/-- Witness for C9: on `sampleConfigs`, select existing, choose the second
configuration, click 'select existing' again, then 'create new'. -/
theorem picker_form_stays_and_data_kept_witness :
    (runActions sampleConfigs
        [PickerAction.selectExistingClicked, PickerAction.createNewClicked,
          PickerAction.selectExistingClicked]
        (selectOnChange sampleConfigs "/api/v2/service-fetch-configurations/2"
          (clickSelectExisting PickerState.initial))).showServiceFetchConfigurationForm = true ∧
    (ServiceFetchConfigurationPicker sampleConfigs
        (clickCreateNew (selectOnChange sampleConfigs "/api/v2/service-fetch-configurations/2"
          (clickSelectExisting PickerState.initial)))).form =
      some { stateData := ServiceFetchData.config sampleConfigB, selectExisting := false } :=
  ⟨(picker_form_stays_and_data_kept sampleConfigs).2.1
      [PickerAction.selectExistingClicked, PickerAction.createNewClicked,
        PickerAction.selectExistingClicked]
      (selectOnChange sampleConfigs "/api/v2/service-fetch-configurations/2"
        (clickSelectExisting PickerState.initial)) (by decide),
    (picker_form_stays_and_data_kept sampleConfigs).2.2.2
      (clickSelectExisting PickerState.initial) "/api/v2/service-fetch-configurations/2"
      sampleConfigB (by decide)⟩

/-- C10: the choices have the length and order of the context's list and the
i-th choice is the pair of the i-th url and the label
method, blank, path, blank, service in parentheses. Whenever the select is
rendered it is handed exactly these choices, with `allowBlank` set, so the
values of its choices are the urls of the list in list order. For every value
of a choice, and so for every non-blank value the select can emit, the
handler's lookup gives the first configuration of the list with that url,
which the handler stores. -/
theorem choices_mirror_configurations (cfgs : List ServiceFetchConfiguration) :
    (serviceFetchConfigurationChoices cfgs).length = cfgs.length ∧
    (∀ i (h : i < cfgs.length),
      (serviceFetchConfigurationChoices cfgs)[i]? =
        some ((cfgs.get ⟨i, h⟩).url,
          (cfgs.get ⟨i, h⟩).method ++ " " ++ (cfgs.get ⟨i, h⟩).path ++ " (" ++
            (cfgs.get ⟨i, h⟩).service ++ ")")) ∧
    (∀ s : PickerState, s.selectExisting = true →
      (ServiceFetchConfigurationPicker cfgs s).select =
        some
          { name := "fetchConfiguration.existing"
            choices := serviceFetchConfigurationChoices cfgs
            value := s.selectedServiceFetchConfig
            allowBlank := true }) ∧
    (∀ (s : PickerState) (sel : SelectProps),
      (ServiceFetchConfigurationPicker cfgs s).select = some sel →
      sel.choices = serviceFetchConfigurationChoices cfgs ∧
      sel.choices.map Prod.fst = cfgs.map (fun c => c.url) ∧
      sel.allowBlank = true) ∧
    (∀ (s : PickerState) (sel : SelectProps) (value : String),
      (ServiceFetchConfigurationPicker cfgs s).select = some sel →
      value ∈ sel.choices.map Prod.fst →
      ∃ c before after, cfgs = before ++ c :: after ∧ c.url = value ∧
        (∀ d ∈ before, d.url ≠ value) ∧
        findByUrl cfgs value = some c ∧
        (selectOnChange cfgs value s).serviceFetchData = ServiceFetchData.config c) ∧
    (∀ (s : PickerState) (sel : SelectProps) (value : String),
      (ServiceFetchConfigurationPicker cfgs s).select = some sel →
      value ∈ sel.emittableValues → value ≠ "" →
      value ∈ sel.choices.map Prod.fst ∧
      ∃ c before after, cfgs = before ++ c :: after ∧ c.url = value ∧
        (∀ d ∈ before, d.url ≠ value) ∧
        findByUrl cfgs value = some c ∧
        (selectOnChange cfgs value s).serviceFetchData = ServiceFetchData.config c) := by
  have hrendered : ∀ (s : PickerState) (sel : SelectProps),
      (ServiceFetchConfigurationPicker cfgs s).select = some sel →
      sel.choices = serviceFetchConfigurationChoices cfgs ∧ sel.allowBlank = true := by
    intro s sel hsel
    cases hs : s.selectExisting
    · simp [ServiceFetchConfigurationPicker, hs] at hsel
    · simp [ServiceFetchConfigurationPicker, hs] at hsel
      rw [← hsel]
      exact ⟨rfl, rfl⟩
  have hlookup : ∀ (s : PickerState) (value : String),
      value ∈ (serviceFetchConfigurationChoices cfgs).map Prod.fst →
      ∃ c before after, cfgs = before ++ c :: after ∧ c.url = value ∧
        (∀ d ∈ before, d.url ≠ value) ∧
        findByUrl cfgs value = some c ∧
        (selectOnChange cfgs value s).serviceFetchData = ServiceFetchData.config c := by
    intro s value hchoice
    obtain ⟨c, hc⟩ := findByUrl_of_mem cfgs value ((mem_choice_values cfgs value).mp hchoice)
    obtain ⟨_, hurl, before, after, hsplit, hbefore⟩ := findByUrl_eq_some cfgs value c hc
    exact ⟨c, before, after, hsplit, hurl, hbefore, hc,
      by simp [selectOnChange, hc, ServiceFetchData.ofFind]⟩
  refine ⟨by simp [serviceFetchConfigurationChoices], ?_, ?_, ?_, ?_, ?_⟩
  · intro i h
    simp [serviceFetchConfigurationChoices, List.getElem?_eq_getElem h, choiceLabel]
  · intro s hs
    simp [ServiceFetchConfigurationPicker, hs]
  · intro s sel hsel
    obtain ⟨hchoices, hblank⟩ := hrendered s sel hsel
    refine ⟨hchoices, ?_, hblank⟩
    rw [hchoices]
    simp [serviceFetchConfigurationChoices]
  · intro s sel value hsel hvalue
    rw [(hrendered s sel hsel).1] at hvalue
    exact hlookup s value hvalue
  · intro s sel value hsel hvalue hne
    obtain ⟨hchoices, hblank⟩ := hrendered s sel hsel
    have hchoice : value ∈ sel.choices.map Prod.fst := by
      unfold SelectProps.emittableValues at hvalue
      rw [hblank] at hvalue
      rcases List.mem_append.mp hvalue with hb | hrest
      · simp at hb
        exact absurd hb hne
      · exact hrest
    refine ⟨hchoice, ?_⟩
    rw [hchoices] at hchoice
    exact hlookup s value hchoice

/-- Witness for C10: for `sampleConfigs` the rendered select is handed the
three mapped choices; the first and third share a url, and choosing it stores
a configuration found before any other with that url. -/
theorem choices_mirror_configurations_witness :
    (serviceFetchConfigurationChoices sampleConfigs)[2]? =
      some ("/api/v2/service-fetch-configurations/1", "GET /users (Accounts)") ∧
    (ServiceFetchConfigurationPicker sampleConfigs
        (clickSelectExisting PickerState.initial)).select =
      some
        { name := "fetchConfiguration.existing"
          choices :=
            [("/api/v2/service-fetch-configurations/1", "GET /pets (Pet store)"),
             ("/api/v2/service-fetch-configurations/2", "POST /orders (Pet store)"),
             ("/api/v2/service-fetch-configurations/1", "GET /users (Accounts)")]
          value := none
          allowBlank := true } ∧
    (∃ c before after, sampleConfigs = before ++ c :: after ∧
      c.url = "/api/v2/service-fetch-configurations/1" ∧
      (∀ d ∈ before, d.url ≠ "/api/v2/service-fetch-configurations/1") ∧
      findByUrl sampleConfigs "/api/v2/service-fetch-configurations/1" = some c ∧
      (selectOnChange sampleConfigs "/api/v2/service-fetch-configurations/1"
        (clickSelectExisting PickerState.initial)).serviceFetchData =
          ServiceFetchData.config c) ∧
    ("/api/v2/service-fetch-configurations/2" ∈ sampleSelectProps.choices.map Prod.fst ∧
      ∃ c before after, sampleConfigs = before ++ c :: after ∧
        c.url = "/api/v2/service-fetch-configurations/2" ∧
        (∀ d ∈ before, d.url ≠ "/api/v2/service-fetch-configurations/2") ∧
        findByUrl sampleConfigs "/api/v2/service-fetch-configurations/2" = some c ∧
        (selectOnChange sampleConfigs "/api/v2/service-fetch-configurations/2"
          (clickSelectExisting PickerState.initial)).serviceFetchData =
            ServiceFetchData.config c) :=
  ⟨(choices_mirror_configurations sampleConfigs).2.1 2 (by decide),
    (choices_mirror_configurations sampleConfigs).2.2.1
      (clickSelectExisting PickerState.initial) rfl,
    (choices_mirror_configurations sampleConfigs).2.2.2.2.1
      (clickSelectExisting PickerState.initial) sampleSelectProps
      "/api/v2/service-fetch-configurations/1" (by decide) (by decide),
    (choices_mirror_configurations sampleConfigs).2.2.2.2.2
      (clickSelectExisting PickerState.initial) sampleSelectProps
      "/api/v2/service-fetch-configurations/2" (by decide) (by decide) (by decide)⟩

/-! ## Objects: lemmas -/

theorem JSObject.get_set_same (o : JSObject) (k : String) (v : JSValue) :
    JSObject.get (JSObject.set o k v) k = v := by
  induction o with
  | nil => simp [JSObject.set, JSObject.get]
  | cons kv rest ih =>
    obtain ⟨k0, w⟩ := kv
    by_cases hk : k0 = k
    · simp [JSObject.set, JSObject.get, hk]
    · simp [JSObject.set, JSObject.get, hk, ih]

theorem JSObject.get_set_other (o : JSObject) (k : String) (v : JSValue) (key : String)
    (hkey : key ≠ k) : JSObject.get (JSObject.set o k v) key = JSObject.get o key := by
  induction o with
  | nil => simp [JSObject.set, JSObject.get, Ne.symm hkey]
  | cons kv rest ih =>
    obtain ⟨k0, w⟩ := kv
    by_cases hk : k0 = k
    · subst hk
      simp [JSObject.set, JSObject.get, Ne.symm hkey]
    · by_cases hk2 : k0 = key
      · subst hk2
        simp [JSObject.set, JSObject.get, hk]
      · simp [JSObject.set, JSObject.get, hk, hk2, ih]

theorem JSObject.keys_set_other (o : JSObject) (k : String) (v : JSValue) :
    ((JSObject.set o k v).map Prod.fst).filter (fun key => key != k) =
      (o.map Prod.fst).filter (fun key => key != k) := by
  induction o with
  | nil => simp [JSObject.set]
  | cons kv rest ih =>
    obtain ⟨k0, w⟩ := kv
    by_cases hk : k0 = k
    · simp [JSObject.set, hk]
    · simp only [JSObject.set, if_neg hk, List.map_cons, List.filter_cons, ih]

theorem JSValue.strictEqStr_iff (v : JSValue) (s : String) :
    v.strictEqStr s = true ↔ v = JSValue.str s := by
  cases v <;> simp [JSValue.strictEqStr]

/-! ## SelectField: claims -/

/-- C4: when `BASIC.components` is an array, `editForm()` returns a
configuration whose `components` holds exactly one component, `TABS`. `TABS`
has the properties of `DEFAULT_TABS` with the same values, `components`
apart, and no further property; its `components` are the basic tab, ADVANCED,
VALIDATION, REGISTRATION and TRANSLATIONS in this order. The basic tab has the
properties of `BASIC`, `components` apart, and its `components` are those of
`BASIC` in their order followed by one component, the datagrid with key
'data.values'. -/
theorem editForm_injects_tabs (tabs : EditTabs) (basicComponents : List JSValue)
    (hbasic : JSObject.get tabs.BASIC "components" = JSValue.arr basicComponents) :
    ∃ TABS BASIC_TAB datagrid : JSObject,
      SelectField.editForm tabs = some [("components", JSValue.arr [JSValue.obj TABS])] ∧
      (∀ k, k ≠ "components" → JSObject.get TABS k = JSObject.get tabs.DEFAULT_TABS k) ∧
      (TABS.map Prod.fst).filter (fun k => k != "components") =
        (tabs.DEFAULT_TABS.map Prod.fst).filter (fun k => k != "components") ∧
      JSObject.get TABS "components" =
        JSValue.arr [JSValue.obj BASIC_TAB, tabs.ADVANCED, tabs.VALIDATION, tabs.REGISTRATION,
          tabs.TRANSLATIONS] ∧
      (∀ k, k ≠ "components" → JSObject.get BASIC_TAB k = JSObject.get tabs.BASIC k) ∧
      JSObject.get BASIC_TAB "components" =
        JSValue.arr (basicComponents ++ [JSValue.obj datagrid]) ∧
      JSObject.get datagrid "type" = JSValue.str "datagrid" ∧
      JSObject.get datagrid "key" = JSValue.str "data.values" := by
  have hvalues : ∃ datagrid : JSObject, values = [JSValue.obj datagrid] ∧
      JSObject.get datagrid "type" = JSValue.str "datagrid" ∧
      JSObject.get datagrid "key" = JSValue.str "data.values" := ⟨_, rfl, rfl, rfl⟩
  obtain ⟨datagrid, hv, htype, hkey⟩ := hvalues
  have hbt : SelectField.basicTab tabs =
      some (JSObject.set tabs.BASIC "components"
        (JSValue.arr (basicComponents ++ [JSValue.obj datagrid]))) := by
    simp [SelectField.basicTab, hbasic, spreadIterable, hv]
  refine ⟨SelectField.tabsOf tabs (JSObject.set tabs.BASIC "components"
      (JSValue.arr (basicComponents ++ [JSValue.obj datagrid]))),
    JSObject.set tabs.BASIC "components"
      (JSValue.arr (basicComponents ++ [JSValue.obj datagrid])), datagrid, ?_, ?_, ?_, ?_, ?_,
    ?_, htype, hkey⟩
  · simp [SelectField.editForm, hbt]
  · intro k hk
    exact JSObject.get_set_other _ _ _ k hk
  · exact JSObject.keys_set_other _ _ _
  · exact JSObject.get_set_same _ _ _
  · intro k hk
    exact JSObject.get_set_other _ _ _ k hk
  · exact JSObject.get_set_same _ _ _

/-- Witness for C4: `sampleTabs`, whose basic tab has two components. -/
theorem editForm_injects_tabs_witness :
    JSObject.get sampleTabs.BASIC "components" =
        JSValue.arr
          [JSValue.obj [("type", JSValue.str "textfield"), ("key", JSValue.str "label")],
           JSValue.obj [("type", JSValue.str "textfield"), ("key", JSValue.str "key")]] ∧
    ∃ TABS BASIC_TAB datagrid : JSObject,
      SelectField.editForm sampleTabs =
        some [("components", JSValue.arr [JSValue.obj TABS])] ∧
      (∀ k, k ≠ "components" → JSObject.get TABS k = JSObject.get sampleTabs.DEFAULT_TABS k) ∧
      (TABS.map Prod.fst).filter (fun k => k != "components") =
        (sampleTabs.DEFAULT_TABS.map Prod.fst).filter (fun k => k != "components") ∧
      JSObject.get TABS "components" =
        JSValue.arr [JSValue.obj BASIC_TAB, sampleTabs.ADVANCED, sampleTabs.VALIDATION,
          sampleTabs.REGISTRATION, sampleTabs.TRANSLATIONS] ∧
      (∀ k, k ≠ "components" → JSObject.get BASIC_TAB k = JSObject.get sampleTabs.BASIC k) ∧
      JSObject.get BASIC_TAB "components" =
        JSValue.arr
          ([JSValue.obj [("type", JSValue.str "textfield"), ("key", JSValue.str "label")],
            JSValue.obj [("type", JSValue.str "textfield"), ("key", JSValue.str "key")]] ++
            [JSValue.obj datagrid]) ∧
      JSObject.get datagrid "type" = JSValue.str "datagrid" ∧
      JSObject.get datagrid "key" = JSValue.str "data.values" :=
  ⟨rfl, editForm_injects_tabs sampleTabs _ rfl⟩

/-- C5: `SelectField.schema(...extend)` is `localiseSchema` applied to an
object that agrees with `Select.schema(...extend)` on every property other
than `key`, has no further property, and has key 'select-key' whatever the
vendor schema gave; `builderInfo.schema` is `SelectField.schema()` and every
other property of `builderInfo` is the vendor's. -/
theorem schema_localised_with_fixed_key (Select : VendorSelect)
    (localiseSchema : JSValue → JSValue) (extend : List JSValue) :
    (SelectField.schema Select localiseSchema extend =
        localiseSchema (JSValue.obj (SelectField.schemaArgument Select extend)) ∧
      (∀ k, k ≠ "key" →
        JSObject.get (SelectField.schemaArgument Select extend) k =
          JSObject.get (Select.schema extend) k) ∧
      ((SelectField.schemaArgument Select extend).map Prod.fst).filter (fun k => k != "key") =
        ((Select.schema extend).map Prod.fst).filter (fun k => k != "key") ∧
      JSObject.get (SelectField.schemaArgument Select extend) "key" =
        JSValue.str "select-key") ∧
    (JSObject.get (SelectField.builderInfo Select localiseSchema) "schema" =
        SelectField.schema Select localiseSchema [] ∧
      ∀ k, k ≠ "schema" →
        JSObject.get (SelectField.builderInfo Select localiseSchema) k =
          JSObject.get Select.builderInfo k) :=
  ⟨⟨rfl, fun k hk => JSObject.get_set_other _ _ _ k hk, JSObject.keys_set_other _ _ _,
      JSObject.get_set_same _ _ _⟩,
    JSObject.get_set_same _ _ _, fun k hk => JSObject.get_set_other _ _ _ k hk⟩

/-- Witness for C5: the extension asks for key 'mine'; the schema keeps the
vendor's type and has key 'select-key', and the builder info keeps the
vendor's title. -/
theorem schema_localised_with_fixed_key_witness :
    JSObject.get (sampleVendorSelect.schema [JSValue.obj [("key", JSValue.str "mine")]]) "key" =
        JSValue.str "mine" ∧
    JSObject.get (SelectField.schemaArgument sampleVendorSelect
        [JSValue.obj [("key", JSValue.str "mine")]]) "key" = JSValue.str "select-key" ∧
    JSObject.get (SelectField.schemaArgument sampleVendorSelect
        [JSValue.obj [("key", JSValue.str "mine")]]) "type" =
      JSObject.get (sampleVendorSelect.schema [JSValue.obj [("key", JSValue.str "mine")]])
        "type" ∧
    JSObject.get (SelectField.builderInfo sampleVendorSelect sampleLocaliseSchema) "title" =
      JSObject.get sampleVendorSelect.builderInfo "title" :=
  ⟨rfl,
    (schema_localised_with_fixed_key sampleVendorSelect sampleLocaliseSchema
      [JSValue.obj [("key", JSValue.str "mine")]]).1.2.2.2,
    (schema_localised_with_fixed_key sampleVendorSelect sampleLocaliseSchema
      [JSValue.obj [("key", JSValue.str "mine")]]).1.2.1 "type" (by decide),
    (schema_localised_with_fixed_key sampleVendorSelect sampleLocaliseSchema
      [JSValue.obj [("key", JSValue.str "mine")]]).2.2 "title" (by decide)⟩

/-! ## Storybook hook: claim -/

/-- C6: for every incoming configuration and every `configType`, with a
non-empty loader path exported by the plugin, `webpackFinal` leaves the
existing rules in place and appends one rule with test `/\.scss$/`. Its `use`
has exactly four entries, none falsy: a first entry, then css-loader with
`url: false`, postcss-loader and sass-loader. The first entry is
`MiniCssExtractPlugin.loader`, and one `MiniCssExtractPlugin` is appended to
the plugins (an instance of that class made with the file name
`static/bundles/[name].css`), exactly when `configType` is 'PRODUCTION';
otherwise the first entry is style-loader and the plugins are unchanged. -/
theorem webpackFinal_wires_scss (scope : BuildScope)
    (hloader : scope.miniCssExtractLoader ≠ "") (config : WebpackConfig)
    (configType : JSValue) :
    ∃ (first : JSValue) (use : List JSValue),
      (webpackFinal scope config configType).rules =
        config.rules ++
          [JSValue.obj [("test", JSValue.regex "\\.scss$"), ("use", JSValue.arr use)]] ∧
      use =
        [first,
         JSValue.obj
          [("loader", JSValue.str "css-loader"),
           ("options", JSValue.obj [("url", JSValue.bool false)])],
         JSValue.obj [("loader", JSValue.str "postcss-loader")],
         JSValue.obj [("loader", JSValue.str "sass-loader"), ("options", sassLoaderOptions)]] ∧
      use.length = 4 ∧
      (∀ entry ∈ use, entry.truthy = true) ∧
      (first = JSValue.str scope.miniCssExtractLoader ↔ configType = JSValue.str "PRODUCTION") ∧
      ((webpackFinal scope config configType).plugins =
          config.plugins ++
            [JSValue.inst "MiniCssExtractPlugin"
              [JSValue.obj [("filename", JSValue.str "static/bundles/[name].css")]]] ↔
        configType = JSValue.str "PRODUCTION") ∧
      (configType ≠ JSValue.str "PRODUCTION" →
        first = JSValue.obj [("loader", JSValue.str "style-loader")] ∧
        (webpackFinal scope config configType).plugins = config.plugins) := by
  have htruthy : (JSValue.str scope.miniCssExtractLoader).truthy = true := by
    simp [JSValue.truthy, hloader]
  cases hprod : configType.strictEqStr "PRODUCTION"
  · have hne : configType ≠ JSValue.str "PRODUCTION" := by
      intro h
      rw [(JSValue.strictEqStr_iff configType "PRODUCTION").mpr h] at hprod
      cases hprod
    have huse : scssUse scope false = [styleLoader, cssLoader, postcssLoader, sassLoader] := by
      simp [scssUse, scssUseEntries, JSValue.and, JSValue.not, JSValue.truthy, styleLoader,
        cssLoader, postcssLoader, sassLoader]
    refine ⟨styleLoader, [styleLoader, cssLoader, postcssLoader, sassLoader],
      ?_, rfl, rfl, ?_, ?_, ?_, ?_⟩
    · simp only [webpackFinal, hprod, scssRule, huse]
    · intro entry hentry
      simp only [List.mem_cons, List.mem_singleton, List.not_mem_nil, or_false] at hentry
      rcases hentry with h | h | h | h <;> subst h <;> rfl
    · simp [styleLoader, hne]
    · simp [webpackFinal, hprod, hne]
    · intro _
      exact ⟨rfl, by simp [webpackFinal, hprod]⟩
  · have heq : configType = JSValue.str "PRODUCTION" :=
      (JSValue.strictEqStr_iff configType "PRODUCTION").mp hprod
    have huse : scssUse scope true =
        [JSValue.str scope.miniCssExtractLoader, cssLoader, postcssLoader, sassLoader] := by
      simp [scssUse, scssUseEntries, JSValue.and, JSValue.not, JSValue.truthy, hloader,
        cssLoader, postcssLoader, sassLoader]
    refine ⟨JSValue.str scope.miniCssExtractLoader,
      [JSValue.str scope.miniCssExtractLoader, cssLoader, postcssLoader, sassLoader],
      ?_, rfl, rfl, ?_, ?_, ?_, ?_⟩
    · simp only [webpackFinal, hprod, scssRule, huse]
    · intro entry hentry
      simp only [List.mem_cons, List.mem_singleton, List.not_mem_nil, or_false] at hentry
      rcases hentry with h | h | h | h <;> subst h <;> first | exact htruthy | rfl
    · simp [heq]
    · exact ⟨fun _ => heq, fun _ => by simp [webpackFinal, hprod, miniCssExtractPlugin]⟩
    · intro hne
      exact absurd heq hne

/-- Witness for C6: a production build of `sampleWebpackConfig` with
`sampleScope`, whose loader path is not empty. -/
theorem webpackFinal_wires_scss_witness :
    sampleScope.miniCssExtractLoader ≠ "" ∧
    ∃ (first : JSValue) (use : List JSValue),
      (webpackFinal sampleScope sampleWebpackConfig (JSValue.str "PRODUCTION")).rules =
        sampleWebpackConfig.rules ++
          [JSValue.obj [("test", JSValue.regex "\\.scss$"), ("use", JSValue.arr use)]] ∧
      use =
        [first,
         JSValue.obj
          [("loader", JSValue.str "css-loader"),
           ("options", JSValue.obj [("url", JSValue.bool false)])],
         JSValue.obj [("loader", JSValue.str "postcss-loader")],
         JSValue.obj [("loader", JSValue.str "sass-loader"), ("options", sassLoaderOptions)]] ∧
      use.length = 4 ∧
      (∀ entry ∈ use, entry.truthy = true) ∧
      (first = JSValue.str sampleScope.miniCssExtractLoader ↔
        JSValue.str "PRODUCTION" = JSValue.str "PRODUCTION") ∧
      ((webpackFinal sampleScope sampleWebpackConfig (JSValue.str "PRODUCTION")).plugins =
          sampleWebpackConfig.plugins ++
            [JSValue.inst "MiniCssExtractPlugin"
              [JSValue.obj [("filename", JSValue.str "static/bundles/[name].css")]]] ↔
        JSValue.str "PRODUCTION" = JSValue.str "PRODUCTION") ∧
      (JSValue.str "PRODUCTION" ≠ JSValue.str "PRODUCTION" →
        first = JSValue.obj [("loader", JSValue.str "style-loader")] ∧
        (webpackFinal sampleScope sampleWebpackConfig (JSValue.str "PRODUCTION")).plugins =
          sampleWebpackConfig.plugins) :=
  ⟨by decide,
    webpackFinal_wires_scss sampleScope (by decide) sampleWebpackConfig
      (JSValue.str "PRODUCTION")⟩

end OpenForms
